import Mathlib

/-!
Verification of the Conformer backbone (mmcls/models/backbones/conformer.py)
against its natural-language specification.

The development is a shallow embedding of the module:

* configuration-time logic (architecture resolution, stochastic-depth
  schedule, constructor validation) is embedded as executable Lean
  functions over `Nat`/`Rat`, with Python exceptions modelled by `Except`;
* the tensor-shape bookkeeping of the forward pass is embedded as a shape
  semantics: a tensor is represented by its per-sample shape
  (`FShape` for rank-4 feature maps with the batch axis dropped,
  `TShape` for rank-3 token sequences with the batch axis dropped) and
  every layer by the function it induces on shapes.  Operations that can
  raise shape errors at run time (element-wise addition, `reshape`,
  residual addition without a projection) return `Option`;
* the data flow of the forward pass is embedded as a value semantics in
  which learned primitive layers (convolutions, normalisations,
  activations, the Transformer encoder layer) are abstract functions and
  token sequences are `List Vec` with `Vec := List Rat`, so that the
  structural operations (concatenation, indexing, element-wise addition,
  mean) are concrete.

The batch axis is dropped from the shape semantics because every layer of
the file acts independently and identically on each batch element; shape
statements below are therefore about the per-sample shape, and the batch
dimension of the source is carried through unchanged.
-/

namespace Conf

/-- An embedding vector: one row of a rank-3 token tensor. -/
abbrev Vec := List ℚ

/-- A token sequence: the per-sample content of a rank-3 tensor
`(batch, seq_len, embed_dim)`. -/
abbrev Seq := List Vec

/-- Element-wise addition of two embedding vectors (`torch` `+` on the
last axis). -/
def vecAdd (a b : Vec) : Vec := List.zipWith (· + ·) a b

/-- Element-wise addition of two token sequences (`x_st + x_t` in the
source; both operands have the same shape there). -/
def seqAdd (a b : Seq) : Seq := List.zipWith vecAdd a b

/-! ## Architecture resolution (Conformer.__init__, lines 327-343) -/

/-- One resolved architecture setting of the `arch_zoo`. -/
structure ArchSettings where
  embed_dims : Nat
  channel_ratio : Nat
  num_heads : Nat
  depths : Nat
  deriving DecidableEq, Repr

/-- `Conformer.arch_zoo` (source lines 286-305): the named presets. -/
def arch_zoo : String → Option ArchSettings
  | "t" | "tiny" => some ⟨384, 1, 6, 12⟩
  | "s" | "small" => some ⟨384, 4, 6, 12⟩
  | "b" | "base" => some ⟨576, 6, 9, 12⟩
  | _ => none

/-- The `essential_keys` set of source lines 333-335, verbatim: note that
the source writes `num_head` (no trailing `s`). -/
def essential_keys : List String := ["embed_dims", "depths", "num_head", "channel_ratio"]

/-- A custom architecture mapping: a Python `dict` with string keys and
integer values, embedded as an association list. -/
abbrev ArchDict := List (String × Nat)

/-- The `arch` constructor argument: a preset name or a custom mapping. -/
inductive ArchArg where
  | name (s : String)
  | custom (d : ArchDict)

/-- Python `set(d) == set(keys)` on an association list. -/
def keySetEq (d : ArchDict) (keys : List String) : Bool :=
  (d.map Prod.fst).toFinset = keys.toFinset

/-- `Conformer.__init__` architecture resolution, lines 327-343.
A string argument is lowercased and looked up in `arch_zoo` (the
`assert arch in set(self.arch_zoo)` raising `AssertionError` otherwise).
A dict argument must have key set exactly `essential_keys`
(`assert ... set(arch) == essential_keys`); afterwards lines 340-343 read
the keys `embed_dims`, `depths`, `num_heads`, `channel_ratio` from the
mapping, a missing key raising `KeyError`. -/
def resolveArch : ArchArg → Except String ArchSettings
  | .name s =>
    match arch_zoo s.toLower with
    | some settings => .ok settings
    | none => .error "AssertionError: Arch is not in default archs"
  | .custom d =>
    if keySetEq d essential_keys then
      match d.lookup "embed_dims", d.lookup "depths",
          d.lookup "num_heads", d.lookup "channel_ratio" with
      | some e, some dp, some nh, some cr =>
        .ok ⟨e, cr, nh, dp⟩
      | _, _, _, _ => .error "KeyError"
    else
      .error "AssertionError: Custom arch needs a dict with the essential keys"

/-! ## Stochastic-depth schedule (Conformer.__init__, lines 354-356) -/

/-- `torch.linspace start stop steps`: `steps` evenly spaced points from
`start` to `stop` inclusive, embedded over `ℚ`.  For `steps = 1` the
formula yields `[start]` because the numerator vanishes. -/
def linspace (start stop : ℚ) (steps : Nat) : List ℚ :=
  (List.range steps).map fun i : Nat =>
    start + (stop - start) * (i : ℚ) / ((steps - 1 : Nat) : ℚ)

/-- `self.trans_dpr` (source lines 354-356): the per-block stochastic
depth drop rates, `torch.linspace(0, drop_path_rate, depths)`. -/
def trans_dpr (drop_path_rate : ℚ) (depths : Nat) : List ℚ :=
  linspace 0 drop_path_rate depths

/-! ## ConvTransBlock construction (lines 191-261) -/

/-- The configuration recorded by `ConvTransBlock.__init__`: the fields
the constructor stores and the shape-relevant parameters of the
submodules it builds. -/
structure ConvTransBlockCfg where
  inplanes : Nat
  outplanes : Nat
  res_conv : Bool
  stride : Nat
  dw_stride : Nat
  embed_dim : Nat
  num_med_block : Nat
  last_fusion : Bool
  fusion_stride : Nat
  fusion_res_conv : Bool
  deriving DecidableEq, Repr

/-- `ConvTransBlock.__init__` (lines 191-261): builds `cnn_block`, a
`fusion_block` whose stride and residual projection depend on
`last_fusion` (lines 218-231), raises `NotImplementedError` when
`num_med_block > 0` (lines 233-234), and records the configuration. -/
def ConvTransBlock.init (inplanes outplanes : Nat) (res_conv : Bool)
    (stride dw_stride embed_dim : Nat) (cls_token : Bool)
    (last_fusion : Bool) (num_med_block : Nat) :
    Except String ConvTransBlockCfg :=
  let _ := cls_token
  if num_med_block > 0 then
    .error "NotImplementedError"
  else
    .ok { inplanes := inplanes, outplanes := outplanes, res_conv := res_conv,
          stride := stride, dw_stride := dw_stride, embed_dim := embed_dim,
          num_med_block := num_med_block, last_fusion := last_fusion,
          fusion_stride := if last_fusion then 2 else 1,
          fusion_res_conv := last_fusion }

/-! ## ConvBlock state and zero_init_last_bn (lines 16-80) -/

/-- The learned state of a `ConvBlock`'s normalisation layers that
`zero_init_last_bn` touches: each batch-norm layer has a `weight`
(scale) and a `bias` vector. -/
structure ConvBlockState where
  bn1_weight : List ℚ
  bn1_bias : List ℚ
  bn2_weight : List ℚ
  bn2_bias : List ℚ
  bn3_weight : List ℚ
  bn3_bias : List ℚ
  deriving DecidableEq, Repr

/-- `ConvBlock.zero_init_last_bn` (lines 79-80):
`nn.init.zeros_(self.bn3.weight)` overwrites every entry of the final
batch-norm scale with `0`, in place, leaving its length and every other
parameter unchanged. -/
def ConvBlock.zero_init_last_bn (s : ConvBlockState) : ConvBlockState :=
  { s with bn3_weight := s.bn3_weight.map fun _ => 0 }

/-! ## Shape semantics of the forward pass

A rank-4 tensor `(batch, channels, height, width)` is represented by its
per-sample shape `FShape`; a rank-3 token tensor
`(batch, seq_len, embed_dim)` by `TShape`.  Every layer of the source
acts independently on batch elements, so the batch axis is carried
through unchanged and omitted here. -/

/-- Per-sample shape of a rank-4 feature-map tensor. -/
structure FShape where
  c : Nat
  h : Nat
  w : Nat
  deriving DecidableEq, Repr

/-- Per-sample shape of a rank-3 token-sequence tensor:
`l` = sequence length, `e` = embedding dimension. -/
structure TShape where
  l : Nat
  e : Nat
  deriving DecidableEq, Repr

/-- Output spatial extent of `nn.Conv2d` (and of the pooling layers in
floor mode): `(size + 2 * padding - kernel) / stride + 1`. -/
def conv2dOut (size k s p : Nat) : Nat := (size + 2 * p - k) / s + 1

/-- Shape action of `nn.Conv2d(cin, cout, kernel_size=k, stride=s,
padding=p)`; `none` when the input channel count does not match. -/
def conv2dShape (cin cout k s p : Nat) (x : FShape) : Option FShape :=
  if x.c = cin then some ⟨cout, conv2dOut x.h k s p, conv2dOut x.w k s p⟩
  else none

/-- Shape action of `ConvBlock.forward` (source lines 82-115).
`x_t` is the optional fusion addend added to the activation entering
`conv2` (line 91); element-wise addition requires equal shapes.  The
residual addition at line 109 requires the residual path's shape (the
1x1 projection when `res_conv`, the raw input otherwise) to equal the
bottleneck output's shape.  Returns `(output, mid_activation)` shapes. -/
def ConvBlock.shape (inplanes outplanes stride : Nat) (res_conv : Bool)
    (x : FShape) (x_t : Option FShape) : Option (FShape × FShape) := do
  let med := outplanes / 4
  let a ← conv2dShape inplanes med 1 1 0 x
  match x_t with
  | none => pure ()
  | some t => if t = a then pure () else none
  let x2 ← conv2dShape med med 3 stride 1 a
  let out ← conv2dShape med outplanes 1 1 0 x2
  let residual ← if res_conv then conv2dShape inplanes outplanes 1 stride 0 x else some x
  if out = residual then some (out, x2) else none

/-- Shape action of `FCUDown.forward` (source lines 140-150): 1x1
projection to `outplanes` channels, average pooling with kernel and
stride `dw_stride`, flatten + transpose into a sequence, then (in
class-token mode) concatenation of `x_t[:, 0]` in front, which requires
`x_t` to be non-empty with embedding width `outplanes`. -/
def FCUDown.shape (inplanes outplanes dw_stride : Nat) (cls_token : Bool)
    (x : FShape) (xt : TShape) : Option TShape := do
  let p ← conv2dShape inplanes outplanes 1 1 0 x
  let hp := conv2dOut p.h dw_stride dw_stride 0
  let wp := conv2dOut p.w dw_stride dw_stride 0
  if cls_token then
    if 1 ≤ xt.l ∧ xt.e = outplanes then some ⟨hp * wp + 1, outplanes⟩ else none
  else
    some ⟨hp * wp, outplanes⟩

/-- Shape action of `FCUUp.forward` (source lines 173-184): drop the
class token when enabled, reshape the remaining sequence to a
`(embed, H, W)` map (which requires the length to be exactly `H * W`),
1x1-project to `outplanes` channels and interpolate up to
`(H * up_stride, W * up_stride)`. -/
def FCUUp.shape (inplanes outplanes up_stride : Nat) (cls_token : Bool)
    (xt : TShape) (H W : Nat) : Option FShape := do
  if xt.e = inplanes then
    let rest := xt.l - (if cls_token then 1 else 0)
    if rest = H * W then some ⟨outplanes, H * up_stride, W * up_stride⟩ else none
  else none

/-- Shape action of `ConvTransBlock.forward` (source lines 263-280).
The Transformer encoder layer preserves the token-sequence shape; the
element-wise sum `x_st + x_t` (line 270) requires equal shapes. -/
def ConvTransBlock.shape (cfg : ConvTransBlockCfg) (cls_token : Bool)
    (x : FShape) (xt : TShape) : Option (FShape × TShape) := do
  let s1 ← ConvBlock.shape cfg.inplanes cfg.outplanes cfg.stride cfg.res_conv x none
  let x2 := s1.2
  let xst ← FCUDown.shape (cfg.outplanes / 4) cfg.embed_dim cfg.dw_stride cls_token x2 xt
  if xst = xt then
    let xtr ← FCUUp.shape cfg.embed_dim (cfg.outplanes / 4) cfg.dw_stride cls_token xt
      (x2.h / cfg.dw_stride) (x2.w / cfg.dw_stride)
    let sf ← ConvBlock.shape cfg.outplanes cfg.outplanes cfg.fusion_stride
      cfg.fusion_res_conv s1.1 (some xtr)
    some (sf.1, xt)
  else none

/-! ## Conformer construction and forward pass, shape level -/

/-- The constructor arguments of `Conformer` that determine the shape
behaviour of the forward pass (source lines 309-322, after architecture
resolution). -/
structure ConformerCfg where
  embed_dims : Nat
  depths : Nat
  num_heads : Nat
  channel_ratio : Nat
  patch_size : Nat
  base_channel : Nat
  cls_token : Bool
  out_indices : List Nat
  deriving Repr

/-- `stage_1_channel = int(base_channel * channel_ratio)` (line 368). -/
def ConformerCfg.stage1Channel (cfg : ConformerCfg) : Nat :=
  cfg.base_channel * cfg.channel_ratio

/-- `stage_2_channel = int(base_channel * channel_ratio * 2)` (line 406). -/
def ConformerCfg.stage2Channel (cfg : ConformerCfg) : Nat :=
  cfg.base_channel * cfg.channel_ratio * 2

/-- `stage_3_channel = int(base_channel * channel_ratio * 2 * 2)` (line 430). -/
def ConformerCfg.stage3Channel (cfg : ConformerCfg) : Nat :=
  cfg.base_channel * cfg.channel_ratio * 2 * 2

/-- `trans_dw_stride = patch_size // 4` (line 369). -/
def ConformerCfg.transDwStride (cfg : ConformerCfg) : Nat := cfg.patch_size / 4

/-- `fin_stage` after the three constructor loops (lines 388-455):
`depths // 3 + 1 + depths // 3 + depths // 3`. -/
def ConformerCfg.finStage (cfg : ConformerCfg) : Nat := 3 * (cfg.depths / 3) + 1

/-- The `ConvTransBlock.__init__` arguments used for `conv_trans_i`,
read off the three constructor loops (lines 387-455): stage group 1 is
`2 ≤ i ≤ depths//3`, group 2 is `depths//3 + 1 ≤ i ≤ 2*(depths//3)`,
group 3 is `2*(depths//3) + 1 ≤ i ≤ 3*(depths//3)`; each group's first
block downsamples with stride 2 and a residual projection, and
`last_fusion` holds exactly when `i = depths`. -/
def ConformerCfg.stageInit (cfg : ConformerCfg) (i : Nat) :
    Except String ConvTransBlockCfg :=
  let g := cfg.depths / 3
  let tds := cfg.transDwStride
  if i < g + 1 then
    ConvTransBlock.init cfg.stage1Channel cfg.stage1Channel false 1 tds
      cfg.embed_dims cfg.cls_token false 0
  else if i < 2 * g + 1 then
    ConvTransBlock.init
      (if i = g + 1 then cfg.stage1Channel else cfg.stage2Channel)
      cfg.stage2Channel (i = g + 1) (if i = g + 1 then 2 else 1) (tds / 2)
      cfg.embed_dims cfg.cls_token false 0
  else
    ConvTransBlock.init
      (if i = 2 * g + 1 then cfg.stage2Channel else cfg.stage3Channel)
      cfg.stage3Channel (i = 2 * g + 1) (if i = 2 * g + 1 then 2 else 1)
      (tds / 4) cfg.embed_dims cfg.cls_token (i = cfg.depths) 0

/-- The list of `conv_trans_i` configurations for `i` ranging over
`2, ..., fin_stage - 1`, as built by `Conformer.__init__`. -/
def ConformerCfg.stages (cfg : ConformerCfg) : Option (List ConvTransBlockCfg) :=
  (List.range' 2 (cfg.finStage - 2)).mapM fun i => (cfg.stageInit i).toOption

/-- Shape action of the stem (source lines 359-365, applied at line 508):
7x7 stride-2 conv from 3 to 64 channels, then 3x3 stride-2 max pooling
with padding 1. -/
def Conformer.stemShape (input : FShape) : Option FShape := do
  let a ← conv2dShape 3 64 7 2 3 input
  some ⟨a.c, conv2dOut a.h 3 2 1, conv2dOut a.w 3 2 1⟩

/-- Shape action of stage 1 (source lines 510-515): `conv_1` (a
residual-projection ConvBlock from 64 to `stage_1_channel` channels,
stride 1), and the token branch seeded by `trans_patch_conv`
(kernel = stride = `trans_dw_stride`), flattened into a sequence with
the class token prepended when enabled; `trans_1` preserves the shape. -/
def Conformer.stage1Shape (cfg : ConformerCfg) (xb : FShape) :
    Option (FShape × TShape) := do
  let s ← ConvBlock.shape 64 cfg.stage1Channel 1 true xb none
  let p ← conv2dShape 64 cfg.embed_dims cfg.transDwStride cfg.transDwStride 0 xb
  let xt : TShape :=
    ⟨p.h * p.w + (if cfg.cls_token then 1 else 0), cfg.embed_dims⟩
  some (s.1, xt)

/-- The `(x, x_t)` shape after each successive `conv_trans_i` call
(source line 519), threading the pair through the stage list. -/
def Conformer.stageTrace (cls_token : Bool) :
    List ConvTransBlockCfg → FShape → TShape → Option (List (FShape × TShape))
  | [], _, _ => some []
  | cfg :: rest, x, xt => do
    let s ← ConvTransBlock.shape cfg cls_token x xt
    let tail ← stageTrace cls_token rest s.1 s.2
    some (s :: tail)

/-- Shape action of `Conformer.forward` (source lines 501-532).  The
result is the per-output-pair feature dimensions: the pooled
convolutional feature `pooling(x).flatten(1)` is `(batch, x.c)` and the
token feature (`trans_norm(x_t)[:, 0]` or `trans_norm(x_t).mean(dim=1)`)
is `(batch, x_t.e)`; `trans_norm = nn.LayerNorm(embed_dims)` requires
`x_t.e = embed_dims` at every collected stage. -/
def Conformer.forwardShape (cfg : ConformerCfg) (input : FShape) :
    Option (List (Nat × Nat)) := do
  let xb ← Conformer.stemShape input
  let s1 ← Conformer.stage1Shape cfg xb
  let stages ← cfg.stages
  let tr ← Conformer.stageTrace cfg.cls_token stages s1.1 s1.2
  let indexed := (List.range' 2 tr.length).zip tr
  if indexed.all fun p =>
      decide (p.1 ∈ cfg.out_indices → p.2.2.e = cfg.embed_dims) then
    some (indexed.filterMap fun p =>
      if p.1 ∈ cfg.out_indices then some (p.2.1.c, p.2.2.e) else none)
  else none

/-- The token-sequence length after stage 1 and after every subsequent
`conv_trans_i` stage of the forward pass. -/
def Conformer.tokenLens (cfg : ConformerCfg) (input : FShape) :
    Option (List Nat) := do
  let xb ← Conformer.stemShape input
  let s1 ← Conformer.stage1Shape cfg xb
  let stages ← cfg.stages
  let tr ← Conformer.stageTrace cfg.cls_token stages s1.1 s1.2
  some (s1.2.l :: tr.map fun s => s.2.l)

/-- The number of spatial tokens produced by the patch-embedding
convolution of stage 1 (the token-grid size `14 * 14` for a 224 input
with `patch_size = 16`). -/
def Conformer.spatialTokens (cfg : ConformerCfg) (input : FShape) :
    Option Nat := do
  let xb ← Conformer.stemShape input
  let p ← conv2dShape 64 cfg.embed_dims cfg.transDwStride cfg.transDwStride 0 xb
  some (p.h * p.w)

/-- `Conformer` configuration from resolved architecture settings and
the remaining constructor defaults
(`patch_size=16`, `base_channel=64`, `out_indices=(12,)`). -/
def Conformer.mkCfg (s : ArchSettings) (cls_token : Bool) : ConformerCfg :=
  { embed_dims := s.embed_dims, depths := s.depths, num_heads := s.num_heads,
    channel_ratio := s.channel_ratio, patch_size := 16, base_channel := 64,
    cls_token := cls_token, out_indices := [12] }

/-! ## Value semantics of the data flow

Learned primitive layers are abstract functions; feature maps live in an
arbitrary type `α`; token sequences are concrete (`Seq`), so that the
structural operations of the source — concatenation, indexing,
element-wise addition, mean — are concrete and the data flow between the
two branches can be stated exactly. -/

/-- Value action of `FCUDown.forward` (source lines 140-150) with the
learned layers abstract: `conv_project`, then `sample_pooling` combined
with `flatten(2).transpose(1, 2)` into the sequence-producing
`flattenT`, then `ln` and `act`; in class-token mode `x_t[:, 0]` is
concatenated in front (line 148).  On an empty `x_t` the source raises
an index error at `x_t[:, 0]`; `x_t` is never empty at the call sites,
and the theorems below only concern non-empty `x_t` in that mode. -/
def FCUDown.forward {α : Type} (conv_project : α → α) (sample_pooling : α → α)
    (flattenT : α → Seq) (ln act : Seq → Seq) (cls_token : Bool)
    (x : α) (x_t : Seq) : Seq :=
  let s := act (ln (flattenT (sample_pooling (conv_project x))))
  if cls_token then
    match x_t with
    | [] => s
    | c :: _ => c :: s
  else s

/-- The learned layers of one `ConvBlock` (source lines 16-77), as
abstract functions on feature maps: the three conv/norm/act triples, the
residual path (`residual_bn ∘ residual_conv` when `res_conv`, the
identity otherwise), drop-path, the optional drop-block, and
element-wise tensor addition. -/
structure ConvBlockOps (α : Type) where
  conv1 : α → α
  bn1 : α → α
  act1 : α → α
  conv2 : α → α
  bn2 : α → α
  act2 : α → α
  conv3 : α → α
  bn3 : α → α
  act3 : α → α
  residual : α → α
  drop_path : α → α
  drop_block : Option (α → α)
  add : α → α → α

/-- `if self.drop_block is not None: x = self.drop_block(x)`
(source lines 87-88, 93-94, 99-100). -/
def ConvBlockOps.dropB {α : Type} (m : ConvBlockOps α) (x : α) : α :=
  match m.drop_block with
  | none => x
  | some f => f x

/-- Value action of `ConvBlock.forward` (source lines 82-115), returning
the `(output, mid_activation)` pair of the `return_x_2=True` branch.
The fusion addend `x_t`, when present, is added to the activation
entering `conv2` (line 91); drop-path is applied to the bottleneck
output before the residual addition (lines 102-109). -/
def ConvBlockOps.forward {α : Type} (m : ConvBlockOps α) (x : α)
    (x_t : Option α) : α × α :=
  let a := m.act1 (m.dropB (m.bn1 (m.conv1 x)))
  let b := m.dropB (m.bn2 (match x_t with
    | none => m.conv2 a
    | some t => m.conv2 (m.add a t)))
  let x2 := m.act2 b
  let c := m.drop_path (m.dropB (m.bn3 (m.conv3 x2)))
  let out := m.act3 (m.add c (m.residual x))
  (out, x2)

/-- The components of one `ConvTransBlock` (source lines 187-261):
`cnn_block` and `fusion_block` as `ConvBlockOps`, the learned internals
of `squeeze_block` (an `FCUDown`), the Transformer encoder layer, the
`expand_block` (an `FCUUp`, taking the target token-grid resolution),
the spatial-shape observation `_, _, H, W = x2.shape` (line 266), the
stored `dw_stride`, and the class-token flag shared by the FCU blocks.
`num_med_block` is always `0` (the constructor raises otherwise), so the
`med_block` loop of lines 272-274 is dead code and does not appear. -/
structure ConvTransBlockOps (α : Type) where
  cnn_block : ConvBlockOps α
  fusion_block : ConvBlockOps α
  squeeze_conv_project : α → α
  squeeze_pooling : α → α
  squeeze_flatten : α → Seq
  squeeze_ln : Seq → Seq
  squeeze_act : Seq → Seq
  trans_block : Seq → Seq
  expand_block : Seq → Nat → Nat → α
  shape_hw : α → Nat × Nat
  dw_stride : Nat
  cls_token : Bool

/-- `self.squeeze_block(x2, x_t)` (source line 268). -/
def ConvTransBlockOps.squeeze {α : Type} (m : ConvTransBlockOps α)
    (x2 : α) (x_t : Seq) : Seq :=
  FCUDown.forward m.squeeze_conv_project m.squeeze_pooling m.squeeze_flatten
    m.squeeze_ln m.squeeze_act m.cls_token x2 x_t

/-- The token sequence fed to the Transformer encoder layer of a
`ConvTransBlock`: `x_st + x_t` (source line 270). -/
def ConvTransBlockOps.transInput {α : Type} (m : ConvTransBlockOps α)
    (x : α) (x_t : Seq) : Seq :=
  seqAdd (m.squeeze (m.cnn_block.forward x none).2 x_t) x_t

/-- Value action of `ConvTransBlock.forward` (source lines 263-280). -/
def ConvTransBlockOps.forward {α : Type} (m : ConvTransBlockOps α)
    (x : α) (x_t : Seq) : α × Seq :=
  let p := m.cnn_block.forward x none
  let hw := m.shape_hw p.2
  let x_st := m.squeeze p.2 x_t
  let x_t2 := m.trans_block (seqAdd x_st x_t)
  let x_t_r := m.expand_block x_t2 (hw.1 / m.dw_stride) (hw.2 / m.dw_stride)
  let xf := (m.fusion_block.forward p.1 (some x_t_r)).1
  (xf, x_t2)

/-- The stage sequence exactly as the specification words it, step by
step: (1) run `cnn_block` on `x` obtaining `(x, x2)`; (2) down-project
`x2` through `squeeze_block` to `x_st`; (3) add `x_st` to the incoming
`x_t` and run `trans_block` on the sum; (4) up-project the Transformer
output through `expand_block` at the conv branch's resolution; (5) run
`fusion_block` on `x` with the up-projection as the fusion addend,
discarding the mid-activation; (6) return the updated pair.  Stated from
the specification's wording, to be compared with the source-derived
`ConvTransBlockOps.forward`. -/
def ConvTransBlockOps.forwardFromSpec {α : Type} (m : ConvTransBlockOps α)
    (x : α) (x_t : Seq) : α × Seq :=
  let step1 := m.cnn_block.forward x none
  let x_st := m.squeeze step1.2 x_t
  let x_t_new := m.trans_block (seqAdd x_st x_t)
  let hw := m.shape_hw step1.2
  let x_t_r := m.expand_block x_t_new (hw.1 / m.dw_stride) (hw.2 / m.dw_stride)
  let x_final := (m.fusion_block.forward step1.1 (some x_t_r)).1
  (x_final, x_t_new)

/-- `torch.mean(dim=1)` over a token sequence: the position-wise average
of the embedding vectors. -/
def seqMean (s : Seq) : Vec :=
  match s with
  | [] => []
  | v :: _ => (s.foldr vecAdd (v.map fun _ => 0)).map fun a => a / s.length

/-- The output pair appended per collected stage by `Conformer.forward`
(source lines 520-530): the pooled, flattened convolutional feature, and
the token feature, which is `trans_norm(x_t)[:, 0]` in class-token mode
and `trans_norm(x_t).mean(dim=1)` otherwise. -/
def Conformer.outputPair {α : Type} (cls_token : Bool) (pool : α → Vec)
    (trans_norm : Seq → Seq) (x : α) (x_t : Seq) : Vec × Vec :=
  if cls_token then
    (pool x, (trans_norm x_t).headD [])
  else
    (pool x, seqMean (trans_norm x_t))

/-- The initial token sequence of `Conformer.forward` (source lines
512-514): the patch tokens from `trans_patch_conv`, with the class token
concatenated in front when `cls_token_flag` is set. -/
def Conformer.initTokens (cls_token : Bool) (cls_vec : Vec)
    (patch_tokens : Seq) : Seq :=
  if cls_token then cls_vec :: patch_tokens else patch_tokens

/-! ## Helper lemmas -/

/-- Adding a vector to itself doubles every entry. -/
theorem vecAdd_self (v : Vec) : vecAdd v v = v.map fun a => 2 * a := by
  induction v with
  | nil => rfl
  | cons a t ih =>
    show (a + a) :: vecAdd t t = (2 * a) :: (t.map fun a => 2 * a)
    rw [ih, two_mul]

/-- Mapping the constant `0` over a rational list yields a zero list of
the same length. -/
theorem map_zero_eq_replicate (l : List ℚ) :
    (l.map fun _ => (0 : ℚ)) = List.replicate l.length 0 := by
  induction l with
  | nil => rfl
  | cons a t ih => simp [List.replicate, ih]

/-! ## The claims -/

/-- Claim C1: the claim states that a custom architecture mapping with
key set exactly `{embed_dims, depths, num_heads, channel_ratio}` passes
validation and is used for the four settings.  The code contradicts
itself: its `essential_keys` set (line 334) contains `num_head` without
the trailing `s`, while lines 340-343 read the key `num_heads`.  This
theorem evaluates the embedded constructor at the claim's input — the
mapping with the documented keys — and shows it fails the key-set
assertion; it also shows that the mapping matching the code's own
`essential_keys` fails afterwards with a `KeyError`, so no custom
mapping can ever construct a model. -/
theorem arch_essential_keys_mismatch :
    resolveArch (.custom [("embed_dims", 384), ("depths", 12),
        ("num_heads", 6), ("channel_ratio", 1)])
      = .error "AssertionError: Custom arch needs a dict with the essential keys"
    ∧ resolveArch (.custom [("embed_dims", 384), ("depths", 12),
        ("num_head", 6), ("channel_ratio", 1)])
      = .error "KeyError"
    ∧ keySetEq [("embed_dims", 384), ("depths", 12), ("num_heads", 6),
        ("channel_ratio", 1)] essential_keys = false :=
  ⟨rfl, rfl, rfl⟩

/-- Claim C2: in class-token mode the token sequence has length equal to
the number of spatial tokens plus one, with the class token at index 0,
and disabling the class token shortens the sequence by exactly one at
every stage.  The initial sequence (source lines 512-514) places the
class token at index 0 and is one longer than the patch-token list; for
each architecture preset on a `(3, 224, 224)` input there are 196
spatial tokens, and the per-stage sequence lengths are constantly 197
with the class token and 196 without — differing by exactly one at
every one of the 12 stages. -/
theorem token_sequence_length_invariant :
    (∀ (v : Vec) (p : Seq),
      (Conformer.initTokens true v p).head? = some v
        ∧ (Conformer.initTokens true v p).length
            = (Conformer.initTokens false v p).length + 1)
    ∧ Conformer.spatialTokens (Conformer.mkCfg ⟨384, 1, 6, 12⟩ true) ⟨3, 224, 224⟩
        = some 196
    ∧ Conformer.tokenLens (Conformer.mkCfg ⟨384, 1, 6, 12⟩ true) ⟨3, 224, 224⟩
        = some (List.replicate 12 (196 + 1))
    ∧ Conformer.tokenLens (Conformer.mkCfg ⟨384, 1, 6, 12⟩ false) ⟨3, 224, 224⟩
        = some (List.replicate 12 196)
    ∧ Conformer.tokenLens (Conformer.mkCfg ⟨384, 4, 6, 12⟩ true) ⟨3, 224, 224⟩
        = some (List.replicate 12 (196 + 1))
    ∧ Conformer.tokenLens (Conformer.mkCfg ⟨384, 4, 6, 12⟩ false) ⟨3, 224, 224⟩
        = some (List.replicate 12 196)
    ∧ Conformer.tokenLens (Conformer.mkCfg ⟨576, 6, 9, 12⟩ true) ⟨3, 224, 224⟩
        = some (List.replicate 12 (196 + 1))
    ∧ Conformer.tokenLens (Conformer.mkCfg ⟨576, 6, 9, 12⟩ false) ⟨3, 224, 224⟩
        = some (List.replicate 12 196) :=
  ⟨fun v p => ⟨rfl, rfl⟩, by decide, by decide, by decide, by decide,
    by decide, by decide, by decide⟩

/-- Claim C3: for every valid architecture preset with the constructor
defaults (`patch_size=16`, `out_indices=(12,)`), the forward pass on a
`(N, 3, 224, 224)` input yields exactly one output pair (one per entry
of `out_indices`); its pooled convolutional feature has per-sample
dimension `stage_3_channel` (256 / 1024 / 1536 for tiny / small / base)
and its token feature has per-sample dimension `embed_dims` (384 / 384 /
576) — the batch axis is carried unchanged by every layer.  The token
feature is `trans_norm(x_t)[:, 0]` (the class-token embedding after the
final LayerNorm) in class-token mode and `trans_norm(x_t).mean(dim=1)`
otherwise. -/
theorem forward_output_pairs_shapes :
    (arch_zoo "t" = some ⟨384, 1, 6, 12⟩ ∧ arch_zoo "tiny" = some ⟨384, 1, 6, 12⟩
      ∧ arch_zoo "s" = some ⟨384, 4, 6, 12⟩ ∧ arch_zoo "small" = some ⟨384, 4, 6, 12⟩
      ∧ arch_zoo "b" = some ⟨576, 6, 9, 12⟩ ∧ arch_zoo "base" = some ⟨576, 6, 9, 12⟩)
    ∧ (∀ cls : Bool,
        Conformer.forwardShape (Conformer.mkCfg ⟨384, 1, 6, 12⟩ cls) ⟨3, 224, 224⟩
            = some [((Conformer.mkCfg ⟨384, 1, 6, 12⟩ cls).stage3Channel, 384)]
          ∧ Conformer.forwardShape (Conformer.mkCfg ⟨384, 4, 6, 12⟩ cls) ⟨3, 224, 224⟩
            = some [((Conformer.mkCfg ⟨384, 4, 6, 12⟩ cls).stage3Channel, 384)]
          ∧ Conformer.forwardShape (Conformer.mkCfg ⟨576, 6, 9, 12⟩ cls) ⟨3, 224, 224⟩
            = some [((Conformer.mkCfg ⟨576, 6, 9, 12⟩ cls).stage3Channel, 576)])
    ∧ (∀ (α : Type) (pool : α → Vec) (tn : Seq → Seq) (x : α) (x_t : Seq),
        (Conformer.outputPair true pool tn x x_t).2 = (tn x_t).headD []
          ∧ (Conformer.outputPair false pool tn x x_t).2 = seqMean (tn x_t)
          ∧ ∀ cls : Bool, (Conformer.outputPair cls pool tn x x_t).1 = pool x) := by
  refine ⟨⟨rfl, rfl, rfl, rfl, rfl, rfl⟩, ?_, ?_⟩
  · intro cls
    cases cls <;> exact ⟨by decide, by decide, by decide⟩
  · intro α pool tn x x_t
    refine ⟨rfl, rfl, fun cls => ?_⟩
    cases cls <;> rfl

/-- Claim C4: `ConvTransBlock.forward` performs exactly the specified
sequence — `cnn_block`, down-projection of the mid-activation,
addition into the incoming token sequence followed by the Transformer
encoder layer (the only point where convolutional information enters
the token branch), up-projection at the conv branch's resolution, and a
fusion `ConvBlock` receiving the up-projection as the addend injected
before its second convolution with the mid-activation discarded.  The
source-derived `forward` coincides with the step-by-step
`forwardFromSpec` transcribed from the specification; its token result
is the Transformer applied to `transInput`; and inside a `ConvBlock`
the addend enters exactly at the input of `conv2`. -/
theorem conv_trans_block_forward_sequence :
    ∀ (α : Type) (m : ConvTransBlockOps α) (x : α) (x_t : Seq),
      m.forward x x_t = m.forwardFromSpec x x_t
        ∧ (m.forward x x_t).2 = m.trans_block (m.transInput x x_t)
        ∧ ∀ (cb : ConvBlockOps α) (y t : α),
            (cb.forward y (some t)).2
              = cb.act2 (cb.dropB (cb.bn2 (cb.conv2
                  (cb.add (cb.act1 (cb.dropB (cb.bn1 (cb.conv1 y)))) t)))) :=
  fun _ _ _ _ => ⟨rfl, rfl, fun _ _ _ => rfl⟩

/-- Claim C5: in class-token mode `FCUDown.forward` prepends the
incoming sequence's class token unchanged at index 0: the output is the
class token consed onto the class-token-free pipeline of the
convolutional input (which does not depend on `x_t` at all), so
`output[:, 0]` equals `x_t[:, 0]` exactly and the class token is never
re-derived from the convolutional input. -/
theorem fcu_down_preserves_cls_token :
    ∀ (α : Type) (cp sp : α → α) (fl : α → Seq) (ln act : Seq → Seq)
      (x : α) (c : Vec) (rest : Seq),
      FCUDown.forward cp sp fl ln act true x (c :: rest)
          = c :: FCUDown.forward cp sp fl ln act false x (c :: rest)
        ∧ (FCUDown.forward cp sp fl ln act true x (c :: rest)).head? = some c :=
  fun _ _ _ _ _ _ _ _ _ => ⟨rfl, rfl⟩

/-- Claim C6: the stochastic-depth drop rates
`torch.linspace(0, drop_path_rate, depths)` form a monotonically
non-decreasing sequence of length `depths` whose first element is
exactly `0` and whose last element (index `depths - 1`) is exactly
`drop_path_rate`, for any non-negative rate and any `depths ≥ 2`. -/
theorem trans_dpr_schedule (r : ℚ) (depths : Nat) (hr : 0 ≤ r)
    (hd : 2 ≤ depths) :
    (trans_dpr r depths)[0]? = some 0
    ∧ (trans_dpr r depths)[depths - 1]? = some r
    ∧ (trans_dpr r depths).length = depths
    ∧ List.Pairwise (· ≤ ·) (trans_dpr r depths) := by
  have h0 : 0 < depths := by omega
  have h1 : depths - 1 < depths := by omega
  have hc : (0 : ℚ) < ((depths - 1 : Nat) : ℚ) := by
    exact_mod_cast Nat.lt_of_lt_of_le Nat.zero_lt_one (by omega)
  refine ⟨?_, ?_, ?_, ?_⟩
  · rw [trans_dpr, linspace]
    rw [List.getElem?_map, List.getElem?_range h0]
    simp
  · rw [trans_dpr, linspace]
    rw [List.getElem?_map, List.getElem?_range h1]
    simp only [Option.map_some', Option.some.injEq, sub_zero, zero_add]
    rw [mul_div_assoc, div_self (ne_of_gt hc), mul_one]
  · rw [trans_dpr, linspace]
    exact (List.length_map _ _).trans (List.length_range _)
  · rw [trans_dpr, linspace]
    refine List.Pairwise.map _ ?_ (List.pairwise_lt_range depths)
    intro a b hab
    simp only [sub_zero, zero_add]
    have hcast : (a : ℚ) ≤ (b : ℚ) := by exact_mod_cast Nat.le_of_lt hab
    exact (div_le_div_iff_of_pos_right hc).mpr (mul_le_mul_of_nonneg_left hcast hr)

/-- Witness for claim C6 at `drop_path_rate = 1/10` and `depths = 12`
(the depth of every preset). -/
theorem trans_dpr_schedule_witness :
    (0 : ℚ) ≤ 1 / 10 ∧ 2 ≤ 12 ∧
    ((trans_dpr (1 / 10) 12)[0]? = some 0
      ∧ (trans_dpr (1 / 10) 12)[12 - 1]? = some (1 / 10)
      ∧ (trans_dpr (1 / 10) 12).length = 12
      ∧ List.Pairwise (· ≤ ·) (trans_dpr (1 / 10) 12)) :=
  ⟨by norm_num, by norm_num, trans_dpr_schedule (1 / 10) 12 (by norm_num) (by norm_num)⟩

/-- Claim C7: constructing a `ConvTransBlock` with `num_med_block > 0`
raises `NotImplementedError` during construction, for every choice of
the remaining arguments, so no forward pass is possible. -/
theorem conv_trans_block_num_med_raises (inpl outpl : Nat) (rc : Bool)
    (s dw e : Nat) (cls lf : Bool) (n : Nat) (h : 0 < n) :
    ConvTransBlock.init inpl outpl rc s dw e cls lf n
      = .error "NotImplementedError" := by
  simp [ConvTransBlock.init, h]

/-- Witness for claim C7 at `num_med_block = 1` with the stage-1
parameters of the tiny preset. -/
theorem conv_trans_block_num_med_raises_witness :
    0 < 1 ∧ ConvTransBlock.init 64 64 false 1 4 384 true false 1
      = .error "NotImplementedError" :=
  ⟨by decide, conv_trans_block_num_med_raises 64 64 false 1 4 384 true false 1 (by decide)⟩

/-- Claim C8: `ConvBlock.zero_init_last_bn` leaves the final
normalisation scale `bn3.weight` equal to the all-zero vector of its
original length: every element is exactly `0` post-call. -/
theorem zero_init_last_bn_zeroes (s : ConvBlockState) :
    (ConvBlock.zero_init_last_bn s).bn3_weight
        = List.replicate s.bn3_weight.length 0
      ∧ (ConvBlock.zero_init_last_bn s).bn3_weight.length
        = s.bn3_weight.length := by
  refine ⟨map_zero_eq_replicate _, ?_⟩
  simp [ConvBlock.zero_init_last_bn]

/-- Claim C9: in class-token mode the sequence fed to the Transformer
encoder layer inside a `ConvTransBlock` carries, at position 0, exactly
twice the incoming class token: `FCUDown` prepends `x_t[:, 0]` to
`x_st`, the Transformer receives `x_st + x_t`, and position 0 of that
sum is `x_t[:, 0] + x_t[:, 0]`, i.e. the class token with every entry
doubled. -/
theorem trans_input_doubles_cls_token :
    ∀ (α : Type) (m : ConvTransBlockOps α) (x : α) (c : Vec) (rest : Seq),
      (({ m with cls_token := true } : ConvTransBlockOps α).forward x (c :: rest)).2
          = m.trans_block
              (({ m with cls_token := true } : ConvTransBlockOps α).transInput x (c :: rest))
        ∧ (({ m with cls_token := true } : ConvTransBlockOps α).transInput x (c :: rest)).head?
            = some (vecAdd c c)
        ∧ vecAdd c c = c.map fun a => 2 * a :=
  fun _ _ _ c _ => ⟨rfl, rfl, vecAdd_self c⟩

/-- Claim C10: with the class token disabled, `FCUDown.forward` never
reads its `x_t` argument: for a fixed convolutional input the outputs on
any two token sequences are identical. -/
theorem fcu_down_independent_of_tokens :
    ∀ (α : Type) (cp sp : α → α) (fl : α → Seq) (ln act : Seq → Seq)
      (x : α) (t1 t2 : Seq),
      FCUDown.forward cp sp fl ln act false x t1
        = FCUDown.forward cp sp fl ln act false x t2 :=
  fun _ _ _ _ _ _ _ _ _ => rfl

end Conf
